import Mathlib

set_option maxRecDepth 2000

/-
  Verification development for the diagnostics reconciler of the vscode-bitbake
  extension (src/client/src/language/diagnosticsSupport.ts).

  The TypeScript module filters the diagnostics that third-party linters attach
  to generated "embedded language" documents, maps them back onto the original
  BitBake recipe file and publishes the surviving set on one of two output
  channels.  The host IDE (vscode), the embedded-document manager, the
  position-mapping utility, the definition/kind request service and the static
  common-directories variable set are external collaborators; they are modelled
  as an explicit environment record of pure functions, and the module under
  verification is translated line by line below.
-/

/-! Basic host data model (vscode types, shallowly embedded).  URIs are
    represented by their string form: the code only compares them via
    toString equality and reads fsPath, which coincide in this model. -/

abbrev Uri := String

structure Position where
  line : Nat
  character : Nat
deriving DecidableEq, Repr

/-- vscode Range; the source field named end is spelled endPos here because
    end is a Lean keyword. -/
structure Range where
  start : Position
  endPos : Position
deriving DecidableEq, Repr

inductive EmbeddedLanguageType where
  | python
  | bash
deriving DecidableEq, Repr

/-- The dynamic shape of the vscode diagnostic code field:
    undefined, a plain string, a number, or an object carrying a value. -/
inductive DiagnosticCode where
  | missing
  | str (s : String)
  | num (n : Int)
  | obj (value : String)
deriving DecidableEq, Repr

/-- vscode Diagnostic.  severity, relatedInformation and tags are opaque
    payload fields that the module only copies; hasDiagnosticCode is the
    undocumented extra property some Pylance diagnostics carry. -/
structure Diagnostic where
  range : Range
  message : String
  source : Option String
  code : DiagnosticCode
  severity : Nat
  relatedInformation : List String
  tags : List Nat
  hasDiagnosticCode : Option Bool
deriving DecidableEq, Repr

/-- vscode TextDocument: identity plus the getText(range) accessor the
    module uses. -/
structure TextDocument where
  uri : Uri
  getText : Range → String

/-- Metadata returned by embeddedLanguageDocsManager.getEmbeddedLanguageDocInfos. -/
structure EmbeddedLanguageDocInfos where
  uri : Uri
  characterIndexes : List Nat

/-- The external collaborators of the module, as one record of pure
    functions: the embedded-document manager, the vscode workspace and
    diagnostics APIs, the position-mapping utility getOriginalDocRange,
    the request service, and the static common-directories variable set
    (an external list per the module imports). -/
structure Env where
  getOriginalUri : Uri → Option Uri
  textDocuments : List TextDocument
  getEmbeddedLanguageDocInfos : Uri → EmbeddedLanguageType → Option EmbeddedLanguageDocInfos
  openTextDocument : String → TextDocument
  getDiagnostics : Uri → List Diagnostic
  getAllDiagnostics : List (Uri × List Diagnostic)
  getOriginalDocRange : TextDocument → TextDocument → List Nat → Range → Option Range
  getEmbeddedLanguageTypeOnPosition : String → Position → Option EmbeddedLanguageType
  getDefinition : TextDocument → Position → List Unit
  commonDirectoriesVariables : List String

/-! String utilities mirroring the JavaScript primitives the module relies
    on (String.prototype.includes, regex matching, path.extname). -/

/-- Drop an expected leading character sequence; some rest when it is a
    leading sequence of the second list. -/
def stripLeadChars : List Char → List Char → Option (List Char)
  | [], rest => some rest
  | _ :: _, [] => Option.none
  | p :: ps, c :: cs => if p == c then stripLeadChars ps cs else Option.none

/-- JavaScript String.prototype.includes on char lists (haystack, needle). -/
def containsChars : List Char → List Char → Bool
  | [], needle => needle.isEmpty
  | c :: cs, needle => (stripLeadChars needle (c :: cs)).isSome || containsChars cs needle

/-- s.includes(sub) for Lean strings. -/
def strIncludes (s sub : String) : Bool :=
  containsChars s.toList sub.toList

/-- source?.includes(sub) === true with an optional receiver. -/
def strIncludesOpt : Option String → String → Bool
  | some s, sub => strIncludes s sub
  | Option.none, _ => false

/-- The regex word character class backslash-w of JavaScript. -/
def isWordChar (c : Char) : Bool :=
  ('a' ≤ c && c ≤ 'z') || ('A' ≤ c && c ≤ 'Z') || ('0' ≤ c && c ≤ '9') || c == '_'

/-- First match of the regex word-run pattern in a char list: index of the
    first word character and the maximal word-character run starting there,
    as JavaScript text.match with a word-run pattern returns. -/
def firstWordRunAux : List Char → Nat → Option (Nat × List Char)
  | [], _ => Option.none
  | c :: cs, i =>
    if isWordChar c then some (i, (c :: cs).takeWhile isWordChar)
    else firstWordRunAux cs (i + 1)

def firstWordRun (s : String) : Option (Nat × List Char) :=
  firstWordRunAux s.toList 0

/-- Numeric value of a digit run, as JavaScript Number() yields on it. -/
def natOfDigits (ds : List Char) : Nat :=
  ds.foldl (fun n c => n * 10 + (c.toNat - 48)) 0

/-- The anchored shellcheck-message pattern of checkIsIgnoredShellcheckSc2154:
    a leading word run followed exactly by the fixed tail; some variable name
    on a match.  Mirrors the named capture group variableName. -/
def sc2154MessageVariable (message : String) : Option String :=
  let cs := message.toList
  let w := cs.takeWhile isWordChar
  if w.isEmpty then Option.none
  else if cs.drop w.length = (" is referenced but not assigned.").toList then some (String.mk w)
  else Option.none

/-- Attempt to match, at the head of the char list, the import-warning shape
    lit1, word run, lit2, digit run, lit3 (the three fixer regexes all have
    this shape; lit2 starts with a quote and lit3 is a literal tail, so the
    greedy word and digit runs are exactly the maximal runs).  Returns the
    length of the textToRemove capture group (which starts right after the
    closing quote, i.e. spans lit2 minus its first character, the digits and
    lit3) together with the numeric value of the lineNumber group. -/
def importMatchAt (lit1 lit2 lit3 cs : List Char) : Option (Nat × Nat) :=
  match stripLeadChars lit1 cs with
  | Option.none => Option.none
  | some rest1 =>
    let w := rest1.takeWhile isWordChar
    if w.isEmpty then Option.none
    else
      match stripLeadChars lit2 (rest1.drop w.length) with
      | Option.none => Option.none
      | some rest2 =>
        let ds := rest2.takeWhile (fun c => '0' ≤ c && c ≤ '9')
        if ds.isEmpty then Option.none
        else
          match stripLeadChars lit3 (rest2.drop ds.length) with
          | Option.none => Option.none
          | some _ => some (lit2.length - 1 + ds.length + lit3.length, natOfDigits ds)

/-- Unanchored regex search: try the import-warning shape at every start
    position, leftmost match first, as JavaScript String.prototype.match. -/
def importSearch (lit1 lit2 lit3 : List Char) : List Char → Option (Nat × Nat)
  | [] => Option.none
  | c :: cs =>
    match importMatchAt lit1 lit2 lit3 (c :: cs) with
    | some r => some r
    | Option.none => importSearch lit1 lit2 lit3 cs

def importMatch (lit1 lit2 lit3 message : String) : Option (Nat × Nat) :=
  importSearch lit1.toList lit2.toList lit3.toList message.toList

/-- Node path.extname on the fsPath (POSIX separators): the suffix of the
    basename from its last dot, empty when there is no dot, when the only
    dot is the leading character of the basename, or for the special
    basename dot-dot. -/
def extname (p : String) : String :=
  let base := p.toList.foldl (fun acc c => if c == '/' then [] else acc ++ [c]) []
  let rev := base.reverse
  let afterDot := rev.takeWhile (fun c => c != '.')
  if base = ['.', '.'] then ""
  else if afterDot.length = rev.length then ""
  else if afterDot.length + 1 = rev.length then ""
  else String.mk ('.' :: afterDot.reverse)

/-! The module under verification, translated function by function from
    src/client/src/language/diagnosticsSupport.ts. -/

def supportedSources : List String := ["Flake8", "Pylance", "Pylint", "shellcheck"]

/-- The name of the diagnostic collection for each embedded language kind. -/
def diagnosticCollectionName : EmbeddedLanguageType → String
  | EmbeddedLanguageType.bash => "bitbake-bash"
  | EmbeddedLanguageType.python => "bitbake-python"

def getEmbeddedLanguageType (uri : Uri) : Option EmbeddedLanguageType :=
  if extname uri = ".py" then some EmbeddedLanguageType.python
  else if extname uri = ".sh" then some EmbeddedLanguageType.bash
  else Option.none

def hasSourceWithCode (diagnostic : Diagnostic) (source code : String) : Bool :=
  if strIncludesOpt diagnostic.source source = false then false
  else
    match diagnostic.code with
    | DiagnosticCode.str s => decide (s = code)
    | DiagnosticCode.obj v => decide (v = code)
    | _ => false

def checkHasSupportedSource (diagnostic : Diagnostic) : Bool :=
  supportedSources.any (fun supportedSource => strIncludesOpt diagnostic.source supportedSource)

def checkIsAlwaysIgnoredDiagnostic (diagnostic : Diagnostic) : Bool :=
  hasSourceWithCode diagnostic "Flake8" "W391" ||
  hasSourceWithCode diagnostic "Pylint" "C0114:missing-module-docstring" ||
  hasSourceWithCode diagnostic "Pylint" "C0116:missing-function-docstring" ||
  hasSourceWithCode diagnostic "Pylint" "C0305:trailing-newlines" ||
  hasSourceWithCode diagnostic "Pylint" "C0415:import-outside-toplevel" ||
  hasSourceWithCode diagnostic "Flake8" "E501" ||
  hasSourceWithCode diagnostic "Pylint" "W0104:pointless-statement" ||
  hasSourceWithCode diagnostic "Pylint" "W0106:expression-not-assigned" ||
  hasSourceWithCode diagnostic "Flake8" "E203" ||
  hasSourceWithCode diagnostic "Flake8" "E211" ||
  hasSourceWithCode diagnostic "Flake8" "E302" ||
  hasSourceWithCode diagnostic "Flake8" "E303"

def checkIsIgnoredDiagnosticOnAnonymousFunctionFirstLine (diagnostic : Diagnostic) : Bool :=
  strIncludesOpt diagnostic.source "Pylance" &&
  decide (diagnostic.hasDiagnosticCode = some false) &&
  decide (diagnostic.message = "\"__anonymous\" is not accessed")

def checkIsIgnoredDiagnosticOnPythonUndefinedVariable (env : Env) (diagnostic : Diagnostic) (originalTextDocument : TextDocument) (adjustedRange : Range) : Bool :=
  if hasSourceWithCode diagnostic "Flake8" "F821" = false ∧
     hasSourceWithCode diagnostic "Pylance" "reportUndefinedVariable" = false ∧
     hasSourceWithCode diagnostic "Pylint" "E0602:undefined-variable" = false then false
  else
    decide (0 < (env.getDefinition originalTextDocument (Position.mk adjustedRange.start.line (adjustedRange.start.character + 1))).length)

/-- The position computed inside checkIsIgnoredShellcheckSc2154: the last
    alphanumeric character of the variable inside the range (the range of a
    variable expansion includes braces), falling back to the range end when
    no word is found or when the match starts at offset zero. -/
def sc2154Position (originalTextDocument : TextDocument) (adjustedRange : Range) : Position :=
  let textOnRange := originalTextDocument.getText adjustedRange
  match firstWordRun textOnRange with
  | Option.none => adjustedRange.endPos
  | some (idx, actualVariable) =>
    if idx = 0 then adjustedRange.endPos
    else Position.mk adjustedRange.endPos.line (adjustedRange.start.character + idx + actualVariable.length)

/-- The fallback tail of checkIsIgnoredShellcheckSc2154: parse the variable
    name out of the message and look it up in commonDirectoriesVariables
    (a lookup with an undefined name is false). -/
def sc2154Fallback (env : Env) (message : String) : Bool :=
  match sc2154MessageVariable message with
  | some variableName => env.commonDirectoriesVariables.contains variableName
  | Option.none => false

def checkIsIgnoredShellcheckSc2154 (env : Env) (diagnostic : Diagnostic) (originalTextDocument : TextDocument) (adjustedRange : Range) : Bool :=
  if hasSourceWithCode diagnostic "shellcheck" "SC2154" = false then false
  else if 0 < (env.getDefinition originalTextDocument (sc2154Position originalTextDocument adjustedRange)).length then true
  else sc2154Fallback env diagnostic.message

/-- The ignore-rule chain, first match short-circuits (the source checks the
    four rules in this order and returns true on the first hit). -/
def checkIsIgnoredDiagnostic (env : Env) (diagnostic : Diagnostic) (originalTextDocument : TextDocument) (adjustedRange : Range) : Bool :=
  checkIsAlwaysIgnoredDiagnostic diagnostic ||
  checkIsIgnoredDiagnosticOnAnonymousFunctionFirstLine diagnostic ||
  checkIsIgnoredDiagnosticOnPythonUndefinedVariable env diagnostic originalTextDocument adjustedRange ||
  checkIsIgnoredShellcheckSc2154 env diagnostic originalTextDocument adjustedRange

/-- In the embedded language document the imports are from line 7 or before. -/
def embeddedLanguageDocImportLine : Nat := 7

/-- The shared fix closure of fixDiagnosticMessagePythonImport: with a match
    whose line number is at most the import line, slice the textToRemove
    group length off the end of the message and append the fixed suffix;
    otherwise (including no match) keep the message. -/
def fixImportMessage (message : String) : Option (Nat × Nat) → String
  | some (textToRemoveLength, lineNumber) =>
    if lineNumber ≤ embeddedLanguageDocImportLine then
      message.take (message.length - textToRemoveLength) ++ " (imported by BitBake)"
    else message
  | Option.none => message

def f811Lit1 : String := "redefinition of unused \x27"
def f811Lit2 : String := "\x27 from line "
def f811Lit3 : String := ""
def w0404Lit1 : String := "Reimport \x27"
def w0404Lit2 : String := "\x27 (imported line "
def w0404Lit3 : String := ")"
def w0621Lit1 : String := "Redefining name \x27"
def w0621Lit2 : String := "\x27 from outer scope (line "
def w0621Lit3 : String := ")"

def fixDiagnosticMessagePythonImport (diagnostic : Diagnostic) : String :=
  if hasSourceWithCode diagnostic "Flake8" "F811" then
    fixImportMessage diagnostic.message (importMatch f811Lit1 f811Lit2 f811Lit3 diagnostic.message)
  else if hasSourceWithCode diagnostic "Pylint" "W0404:reimported" then
    fixImportMessage diagnostic.message (importMatch w0404Lit1 w0404Lit2 w0404Lit3 diagnostic.message)
  else if hasSourceWithCode diagnostic "Pylint" "W0621:redefined-outer-name" then
    fixImportMessage diagnostic.message (importMatch w0621Lit1 w0621Lit2 w0621Lit3 diagnostic.message)
  else diagnostic.message

/-- The template-literal rendering of the optional source field. -/
def sourceText : Option String → String
  | some s => s
  | Option.none => "undefined"

/-- The adjusted diagnostic built for a surviving raw diagnostic: spread of
    the raw one with message, range and source replaced. -/
def adjustDiagnostic (kind : EmbeddedLanguageType) (diagnostic : Diagnostic) (adjustedRange : Range) : Diagnostic :=
  { diagnostic with
    message := fixDiagnosticMessagePythonImport diagnostic
    range := adjustedRange
    source := some (sourceText diagnostic.source ++ ", " ++ diagnosticCollectionName kind) }

/-- The context updateDiagnostics resolves before processing diagnostics. -/
structure Ctx where
  kind : EmbeddedLanguageType
  originalTextDocument : TextDocument
  infos : EmbeddedLanguageDocInfos
  embeddedLanguageDoc : TextDocument

/-- The early-return prefix of updateDiagnostics: embedded language kind from
    the file extension, original URI, currently open original document, and
    embedded-document metadata; the embedded language document is then opened
    by its fsPath. -/
def resolveContext (env : Env) (uri : Uri) : Option Ctx :=
  match getEmbeddedLanguageType uri with
  | Option.none => Option.none
  | some embeddedLanguageType =>
    match env.getOriginalUri uri with
    | Option.none => Option.none
    | some originalUri =>
      match env.textDocuments.find? (fun textDocument => textDocument.uri == originalUri) with
      | Option.none => Option.none
      | some originalTextDocument =>
        match env.getEmbeddedLanguageDocInfos originalTextDocument.uri embeddedLanguageType with
        | Option.none => Option.none
        | some infos =>
          some (Ctx.mk embeddedLanguageType originalTextDocument infos (env.openTextDocument infos.uri))

/-- The per-diagnostic task body of updateDiagnostics: keep the diagnostic
    only when its source is supported, its range maps back to the original
    document, the embedded language kind at the mapped position matches, and
    the ignore-rule chain does not fire; the kept diagnostic is the adjusted
    one. -/
def processOneDiagnostic (env : Env) (ctx : Ctx) (diagnostic : Diagnostic) : Option Diagnostic :=
  if checkHasSupportedSource diagnostic = false then Option.none
  else
    match env.getOriginalDocRange ctx.originalTextDocument ctx.embeddedLanguageDoc ctx.infos.characterIndexes diagnostic.range with
    | Option.none => Option.none
    | some adjustedRange =>
      if env.getEmbeddedLanguageTypeOnPosition ctx.originalTextDocument.uri adjustedRange.endPos ≠ some ctx.kind then Option.none
      else if checkIsIgnoredDiagnostic env diagnostic ctx.originalTextDocument adjustedRange = true then Option.none
      else some (adjustDiagnostic ctx.kind diagnostic adjustedRange)

/-- One publication to a diagnostic collection: the channel, the key (the
    original document URI) and the clean diagnostics list set for it. -/
structure Publish where
  kind : EmbeddedLanguageType
  targetUri : Uri
  diagnostics : List Diagnostic
deriving DecidableEq, Repr

/-- The clean set updateDiagnostics publishes once the context resolved:
    the dirty diagnostics of the embedded document, filtered and adjusted. -/
def publishFor (env : Env) (ctx : Ctx) : Publish :=
  Publish.mk ctx.kind ctx.originalTextDocument.uri
    ((env.getDiagnostics ctx.infos.uri).filterMap (processOneDiagnostic env ctx))

/-- updateDiagnostics: either an early return with no publication, or exactly
    one publication of the clean set. -/
def updateDiagnostics (env : Env) (uri : Uri) : Option Publish :=
  (resolveContext env uri).map (publishFor env)

/-- The two diagnostic collections as observable state: the current list set
    for each channel and original-document URI, none when never set. -/
def Channels := EmbeddedLanguageType → Uri → Option (List Diagnostic)

/-- updateDiagnostics as a state transformer on the two collections: an early
    return leaves them unchanged, a publication replaces one entry wholesale. -/
def runUpdateDiagnostics (env : Env) (uri : Uri) (channels : Channels) : Channels :=
  match updateDiagnostics env uri with
  | Option.none => channels
  | some pub => fun kind targetUri =>
      if kind = pub.kind ∧ targetUri = pub.targetUri then some pub.diagnostics
      else channels kind targetUri

/-- The publications reviewDiagnostics performs: one updateDiagnostics call
    per URI currently holding diagnostics, collecting each resulting
    publication. -/
def reviewDiagnosticsPublishes (env : Env) : List Publish :=
  env.getAllDiagnostics.filterMap (fun entry => updateDiagnostics env entry.1)

/-- reviewDiagnostics as a state transformer on the two collections. -/
def reviewDiagnosticsRun (env : Env) (channels : Channels) : Channels :=
  env.getAllDiagnostics.foldl (fun st entry => runUpdateDiagnostics env entry.1 st) channels

/-- The always-ignored table as the source spells it: substring-matched
    source together with the exact code string compared against the plain or
    structured code of the diagnostic. -/
def alwaysIgnoredPairs : List (String × String) :=
  [("Flake8", "W391"),
   ("Pylint", "C0114:missing-module-docstring"),
   ("Pylint", "C0116:missing-function-docstring"),
   ("Pylint", "C0305:trailing-newlines"),
   ("Pylint", "C0415:import-outside-toplevel"),
   ("Flake8", "E501"),
   ("Pylint", "W0104:pointless-statement"),
   ("Pylint", "W0106:expression-not-assigned"),
   ("Flake8", "E203"),
   ("Flake8", "E211"),
   ("Flake8", "E302"),
   ("Flake8", "E303")]

/-! Concrete sample data used to evaluate the development on closed inputs. -/

/-- An empty diagnostic-collection state. -/
def emptyChannels : Channels := fun _ _ => Option.none

/-- A concrete open original document whose text on any range is a bash
    variable expansion. -/
def docFoo : TextDocument :=
  TextDocument.mk "orig.bb" (fun _ => "$\x7bFOO\x7d")

/-- A concrete environment: one open original document, embedded document
    metadata at a fixed URI, identity position mapping, a fixed embedded
    language kind at every position, and the given diagnostics, definition
    results and common-directories variables. -/
def mkEnv (doc : TextDocument) (kind : EmbeddedLanguageType) (diags : List Diagnostic) (defs : List Unit) (common : List String) : Env :=
  Env.mk
    (fun _ => some doc.uri)
    [doc]
    (fun _ _ => some (EmbeddedLanguageDocInfos.mk "emb.py" []))
    (fun p => TextDocument.mk p (fun _ => ""))
    (fun _ => diags)
    []
    (fun _ _ _ r => some r)
    (fun _ _ => some kind)
    (fun _ _ => defs)
    common

/-- The context the concrete environment resolves for a python embedded
    document URI. -/
def ctxPy : Ctx :=
  Ctx.mk EmbeddedLanguageType.python docFoo (EmbeddedLanguageDocInfos.mk "emb.py" [])
    (TextDocument.mk "emb.py" (fun _ => ""))

/-- A bash-side context used with the shellcheck rule. -/
def ctxBash : Ctx :=
  Ctx.mk EmbeddedLanguageType.bash docFoo (EmbeddedLanguageDocInfos.mk "emb.sh" [])
    (TextDocument.mk "emb.sh" (fun _ => ""))

/-- A plain Flake8 diagnostic that survives every filter. -/
def diagClean : Diagnostic :=
  Diagnostic.mk (Range.mk (Position.mk 0 0) (Position.mk 0 3)) "some warning"
    (some "Flake8") (DiagnosticCode.str "E999") 1 ["rel"] [3] Option.none

/-- A Pylint diagnostic whose code is the bare rule identifier C0114, not the
    code string of the always-ignored table. -/
def diagC0114 : Diagnostic :=
  Diagnostic.mk (Range.mk (Position.mk 1 0) (Position.mk 1 4)) "missing module docstring"
    (some "Pylint") (DiagnosticCode.str "C0114") 2 [] [] Option.none

/-- A Pylint diagnostic carrying the full always-ignored code string. -/
def diagC0114Full : Diagnostic :=
  Diagnostic.mk (Range.mk (Position.mk 1 0) (Position.mk 1 4)) "missing module docstring"
    (some "Pylint") (DiagnosticCode.str "C0114:missing-module-docstring") 2 [] [] Option.none

/-- The weird Pylance anonymous-function diagnostic: no code, but the
    hasDiagnosticCode property set to false. -/
def diagAnon : Diagnostic :=
  Diagnostic.mk (Range.mk (Position.mk 2 0) (Position.mk 2 11)) "\"__anonymous\" is not accessed"
    (some "Pylance") DiagnosticCode.missing 3 [] [] (some false)

/-- The same Pylance message with a code present. -/
def diagAnonCoded : Diagnostic :=
  Diagnostic.mk (Range.mk (Position.mk 2 0) (Position.mk 2 11)) "\"__anonymous\" is not accessed"
    (some "Pylance") (DiagnosticCode.str "reportUnusedVariable") 3 [] [] Option.none

/-- A Flake8 F811 redefinition warning citing line 3. -/
def diagF811near : Diagnostic :=
  Diagnostic.mk (Range.mk (Position.mk 3 0) (Position.mk 3 5)) "redefinition of unused \x27x\x27 from line 3"
    (some "Flake8") (DiagnosticCode.str "F811") 1 [] [] Option.none

/-- A Flake8 F811 redefinition warning citing line 9. -/
def diagF811far : Diagnostic :=
  Diagnostic.mk (Range.mk (Position.mk 3 0) (Position.mk 3 5)) "redefinition of unused \x27x\x27 from line 9"
    (some "Flake8") (DiagnosticCode.str "F811") 1 [] [] Option.none

/-- A diagnostic whose message matches none of the import-warning patterns. -/
def diagOther : Diagnostic :=
  Diagnostic.mk (Range.mk (Position.mk 3 0) (Position.mk 3 5)) "hello"
    (some "Flake8") (DiagnosticCode.str "F811") 1 [] [] Option.none

/-- A shellcheck SC2154 diagnostic for the FOO variable expansion. -/
def diagSC : Diagnostic :=
  Diagnostic.mk (Range.mk (Position.mk 4 10) (Position.mk 4 16)) "FOO is referenced but not assigned."
    (some "shellcheck") (DiagnosticCode.str "SC2154") 2 [] [] Option.none

/-- A diagnostic from an unrecognized source tool. -/
def diagEslint : Diagnostic :=
  Diagnostic.mk (Range.mk (Position.mk 5 0) (Position.mk 5 2)) "some eslint warning"
    (some "eslint") (DiagnosticCode.str "no-unused-vars") 1 [] [] Option.none

def envClean : Env := mkEnv docFoo EmbeddedLanguageType.python [diagClean] [] []

def envC0114 : Env := mkEnv docFoo EmbeddedLanguageType.python [diagC0114] [] []

def envSCdef : Env := mkEnv docFoo EmbeddedLanguageType.bash [diagSC] [()] []

def envSCfallback : Env := mkEnv docFoo EmbeddedLanguageType.bash [diagSC] [] ["FOO"]

def envSCnone : Env := mkEnv docFoo EmbeddedLanguageType.bash [diagSC] [] []

/-- The adjusted form under which the clean sample diagnostic is published. -/
def diagCleanAdjusted : Diagnostic :=
  adjustDiagnostic EmbeddedLanguageType.python diagClean diagClean.range

/-! Helper lemmas shared by the claim theorems. -/

theorem hasSourceWithCode_includes (d : Diagnostic) (s c : String)
    (h : hasSourceWithCode d s c = true) : strIncludesOpt d.source s = true := by
  cases hb : strIncludesOpt d.source s with
  | false => unfold hasSourceWithCode at h; simp [hb] at h
  | true => rfl

theorem hasSourceWithCode_code (d : Diagnostic) (s c : String)
    (h : hasSourceWithCode d s c = true) :
    d.code = DiagnosticCode.str c ∨ d.code = DiagnosticCode.obj c := by
  unfold hasSourceWithCode at h
  by_cases hi : strIncludesOpt d.source s = false
  · simp [hi] at h
  · simp only [hi, if_false] at h
    cases hcode : d.code <;> rw [hcode] at h <;> simp at h
    · exact Or.inl (by rw [h])
    · exact Or.inr (by rw [h])

theorem hasSourceWithCode_unique (d : Diagnostic) (s c s2 c2 : String)
    (h : hasSourceWithCode d s c = true) (h2 : hasSourceWithCode d s2 c2 = true) : c = c2 := by
  rcases hasSourceWithCode_code d s c h with hc | hc <;>
    rcases hasSourceWithCode_code d s2 c2 h2 with hc2 | hc2 <;>
      rw [hc] at hc2 <;> cases hc2 <;> rfl

theorem hasSourceWithCode_false_of_code_ne (d : Diagnostic) (s c s2 c2 : String)
    (h : hasSourceWithCode d s c = true) (hne : c2 ≠ c) : hasSourceWithCode d s2 c2 = false := by
  cases h2 : hasSourceWithCode d s2 c2 with
  | false => rfl
  | true => exact absurd (hasSourceWithCode_unique d s c s2 c2 h h2).symm hne

theorem alwaysIgnored_of_pair (d : Diagnostic) (s c : String)
    (hmem : (s, c) ∈ alwaysIgnoredPairs) (h : hasSourceWithCode d s c = true) :
    checkIsAlwaysIgnoredDiagnostic d = true := by
  fin_cases hmem <;> simp_all [checkIsAlwaysIgnoredDiagnostic]

theorem alwaysIgnored_false_of_code (d : Diagnostic) (s c : String)
    (h : hasSourceWithCode d s c = true)
    (hc : alwaysIgnoredPairs.all (fun p => decide (p.2 ≠ c)) = true) :
    checkIsAlwaysIgnoredDiagnostic d = false := by
  simp [alwaysIgnoredPairs] at hc
  obtain ⟨h1, h2, h3, h4, h5, h6, h7, h8, h9, h10, h11, h12⟩ := hc
  unfold checkIsAlwaysIgnoredDiagnostic
  rw [hasSourceWithCode_false_of_code_ne d s c "Flake8" "W391" h h1,
    hasSourceWithCode_false_of_code_ne d s c "Pylint" "C0114:missing-module-docstring" h h2,
    hasSourceWithCode_false_of_code_ne d s c "Pylint" "C0116:missing-function-docstring" h h3,
    hasSourceWithCode_false_of_code_ne d s c "Pylint" "C0305:trailing-newlines" h h4,
    hasSourceWithCode_false_of_code_ne d s c "Pylint" "C0415:import-outside-toplevel" h h5,
    hasSourceWithCode_false_of_code_ne d s c "Flake8" "E501" h h6,
    hasSourceWithCode_false_of_code_ne d s c "Pylint" "W0104:pointless-statement" h h7,
    hasSourceWithCode_false_of_code_ne d s c "Pylint" "W0106:expression-not-assigned" h h8,
    hasSourceWithCode_false_of_code_ne d s c "Flake8" "E203" h h9,
    hasSourceWithCode_false_of_code_ne d s c "Flake8" "E211" h h10,
    hasSourceWithCode_false_of_code_ne d s c "Flake8" "E302" h h11,
    hasSourceWithCode_false_of_code_ne d s c "Flake8" "E303" h h12]
  rfl

theorem undefinedVariable_false_of_code (env : Env) (d : Diagnostic) (orig : TextDocument) (r : Range) (s c : String)
    (h : hasSourceWithCode d s c = true)
    (h1 : c ≠ "F821") (h2 : c ≠ "reportUndefinedVariable") (h3 : c ≠ "E0602:undefined-variable") :
    checkIsIgnoredDiagnosticOnPythonUndefinedVariable env d orig r = false := by
  unfold checkIsIgnoredDiagnosticOnPythonUndefinedVariable
  rw [if_pos]
  exact ⟨hasSourceWithCode_false_of_code_ne d s c "Flake8" "F821" h (Ne.symm h1),
    hasSourceWithCode_false_of_code_ne d s c "Pylance" "reportUndefinedVariable" h (Ne.symm h2),
    hasSourceWithCode_false_of_code_ne d s c "Pylint" "E0602:undefined-variable" h (Ne.symm h3)⟩

theorem sc2154_false_of_code (env : Env) (d : Diagnostic) (orig : TextDocument) (r : Range) (s c : String)
    (h : hasSourceWithCode d s c = true) (hne : c ≠ "SC2154") :
    checkIsIgnoredShellcheckSc2154 env d orig r = false := by
  unfold checkIsIgnoredShellcheckSc2154
  simp [hasSourceWithCode_false_of_code_ne d s c "shellcheck" "SC2154" h (Ne.symm hne)]

theorem checkIsIgnoredDiagnostic_eq_false_iff (env : Env) (d : Diagnostic) (orig : TextDocument) (r : Range) :
    checkIsIgnoredDiagnostic env d orig r = false ↔
      checkIsAlwaysIgnoredDiagnostic d = false ∧
      checkIsIgnoredDiagnosticOnAnonymousFunctionFirstLine d = false ∧
      checkIsIgnoredDiagnosticOnPythonUndefinedVariable env d orig r = false ∧
      checkIsIgnoredShellcheckSc2154 env d orig r = false := by
  simp [checkIsIgnoredDiagnostic, and_assoc]

theorem processOne_eq_some_iff (env : Env) (ctx : Ctx) (d cd : Diagnostic) :
    processOneDiagnostic env ctx d = some cd ↔
      checkHasSupportedSource d = true ∧
      ∃ adjustedRange,
        env.getOriginalDocRange ctx.originalTextDocument ctx.embeddedLanguageDoc ctx.infos.characterIndexes d.range = some adjustedRange ∧
        env.getEmbeddedLanguageTypeOnPosition ctx.originalTextDocument.uri adjustedRange.endPos = some ctx.kind ∧
        checkIsIgnoredDiagnostic env d ctx.originalTextDocument adjustedRange = false ∧
        cd = adjustDiagnostic ctx.kind d adjustedRange := by
  unfold processOneDiagnostic
  cases hs : checkHasSupportedSource d with
  | false => simp [hs]
  | true =>
    cases hr : env.getOriginalDocRange ctx.originalTextDocument ctx.embeddedLanguageDoc ctx.infos.characterIndexes d.range with
    | none => simp [hs, hr]
    | some adjustedRange =>
      by_cases hk : env.getEmbeddedLanguageTypeOnPosition ctx.originalTextDocument.uri adjustedRange.endPos = some ctx.kind
      · cases hi : checkIsIgnoredDiagnostic env d ctx.originalTextDocument adjustedRange with
        | true => simp [hs, hr, hk, hi]
        | false =>
          simp [hs, hr, hk, hi]
          exact eq_comm
      · rw [if_neg (by decide)]
        rw [show (match (some adjustedRange : Option Range) with
            | Option.none => (Option.none : Option Diagnostic)
            | some adjustedRange =>
              if env.getEmbeddedLanguageTypeOnPosition ctx.originalTextDocument.uri adjustedRange.endPos ≠ some ctx.kind then Option.none
              else if checkIsIgnoredDiagnostic env d ctx.originalTextDocument adjustedRange = true then Option.none
              else some (adjustDiagnostic ctx.kind d adjustedRange)) =
            (if env.getEmbeddedLanguageTypeOnPosition ctx.originalTextDocument.uri adjustedRange.endPos ≠ some ctx.kind then Option.none
            else if checkIsIgnoredDiagnostic env d ctx.originalTextDocument adjustedRange = true then Option.none
            else some (adjustDiagnostic ctx.kind d adjustedRange)) from rfl,
          if_pos hk]
        simp [hk]

theorem processOne_none_of_ignored (env : Env) (ctx : Ctx) (d : Diagnostic)
    (hig : ∀ adjustedRange, checkIsIgnoredDiagnostic env d ctx.originalTextDocument adjustedRange = true) :
    processOneDiagnostic env ctx d = Option.none := by
  unfold processOneDiagnostic
  cases hs : checkHasSupportedSource d with
  | false => simp [hs]
  | true =>
    cases hr : env.getOriginalDocRange ctx.originalTextDocument ctx.embeddedLanguageDoc ctx.infos.characterIndexes d.range with
    | none => simp [hs, hr]
    | some adjustedRange => simp [hs, hr, hig]

theorem publish_eq_of_resolve (env : Env) (uri : Uri) (ctx : Ctx) (pub : Publish)
    (hctx : resolveContext env uri = some ctx)
    (hpub : updateDiagnostics env uri = some pub) :
    pub = publishFor env ctx := by
  unfold updateDiagnostics at hpub
  rw [hctx] at hpub
  simpa using hpub.symm

theorem mem_publishFor (env : Env) (ctx : Ctx) (cd : Diagnostic) :
    cd ∈ (publishFor env ctx).diagnostics ↔
      ∃ raw, raw ∈ env.getDiagnostics ctx.infos.uri ∧ processOneDiagnostic env ctx raw = some cd := by
  simp [publishFor, List.mem_filterMap]

theorem published_from_other (env : Env) (ctx : Ctx) (uri : Uri) (pub : Publish) (d cd : Diagnostic)
    (hnone : processOneDiagnostic env ctx d = Option.none)
    (hctx : resolveContext env uri = some ctx)
    (hpub : updateDiagnostics env uri = some pub)
    (hcd : cd ∈ pub.diagnostics) :
    ∃ raw, raw ∈ env.getDiagnostics ctx.infos.uri ∧ raw ≠ d ∧ processOneDiagnostic env ctx raw = some cd := by
  rw [publish_eq_of_resolve env uri ctx pub hctx hpub] at hcd
  rcases (mem_publishFor env ctx cd).mp hcd with ⟨raw, hrm, hproc⟩
  refine ⟨raw, hrm, ?_, hproc⟩
  rintro rfl
  rw [hnone] at hproc
  exact Option.noConfusion hproc

theorem runUpdateDiagnostics_idem (env : Env) (uri : Uri) (channels : Channels) :
    runUpdateDiagnostics env uri (runUpdateDiagnostics env uri channels) = runUpdateDiagnostics env uri channels := by
  unfold runUpdateDiagnostics
  cases h : updateDiagnostics env uri with
  | none => rfl
  | some pub =>
    funext kind targetUri
    by_cases hc : kind = pub.kind ∧ targetUri = pub.targetUri
    · simp [hc]
    · simp [hc]

/-! Claim theorems. -/

/-- Claim C1: every diagnostic updateDiagnostics publishes stems from a raw
    diagnostic of the embedded language document whose range the
    position-mapping utility mapped back to the original document, whose
    mapped position reports the embedded language kind being processed, and
    for which every rule of the ignore-rule chain returned no match; the
    published entry is exactly the adjusted raw diagnostic, so a diagnostic
    failing any of the three conditions contributes nothing to the published
    set. -/
theorem updateDiagnostics_publishes_only_mapped_matching_unignored
    (env : Env) (uri : Uri) (ctx : Ctx) (pub : Publish) (cd : Diagnostic)
    (hctx : resolveContext env uri = some ctx)
    (hpub : updateDiagnostics env uri = some pub)
    (hcd : cd ∈ pub.diagnostics) :
    ∃ raw, raw ∈ env.getDiagnostics ctx.infos.uri ∧
      ∃ adjustedRange,
        env.getOriginalDocRange ctx.originalTextDocument ctx.embeddedLanguageDoc ctx.infos.characterIndexes raw.range = some adjustedRange ∧
        env.getEmbeddedLanguageTypeOnPosition ctx.originalTextDocument.uri adjustedRange.endPos = some ctx.kind ∧
        checkIsAlwaysIgnoredDiagnostic raw = false ∧
        checkIsIgnoredDiagnosticOnAnonymousFunctionFirstLine raw = false ∧
        checkIsIgnoredDiagnosticOnPythonUndefinedVariable env raw ctx.originalTextDocument adjustedRange = false ∧
        checkIsIgnoredShellcheckSc2154 env raw ctx.originalTextDocument adjustedRange = false ∧
        cd = adjustDiagnostic ctx.kind raw adjustedRange := by
  rw [publish_eq_of_resolve env uri ctx pub hctx hpub] at hcd
  rcases (mem_publishFor env ctx cd).mp hcd with ⟨raw, hrm, hproc⟩
  rcases (processOne_eq_some_iff env ctx raw cd).mp hproc with ⟨hsup, adjustedRange, hr, hkind, hig, hcd2⟩
  rcases (checkIsIgnoredDiagnostic_eq_false_iff env raw ctx.originalTextDocument adjustedRange).mp hig with ⟨ha, hb, hc, hd⟩
  exact ⟨raw, hrm, adjustedRange, hr, hkind, ha, hb, hc, hd, hcd2⟩

theorem updateDiagnostics_publishes_only_mapped_matching_unignored_witness :
    ∃ raw, raw ∈ envClean.getDiagnostics ctxPy.infos.uri ∧
      ∃ adjustedRange,
        envClean.getOriginalDocRange ctxPy.originalTextDocument ctxPy.embeddedLanguageDoc ctxPy.infos.characterIndexes raw.range = some adjustedRange ∧
        envClean.getEmbeddedLanguageTypeOnPosition ctxPy.originalTextDocument.uri adjustedRange.endPos = some ctxPy.kind ∧
        checkIsAlwaysIgnoredDiagnostic raw = false ∧
        checkIsIgnoredDiagnosticOnAnonymousFunctionFirstLine raw = false ∧
        checkIsIgnoredDiagnosticOnPythonUndefinedVariable envClean raw ctxPy.originalTextDocument adjustedRange = false ∧
        checkIsIgnoredShellcheckSc2154 envClean raw ctxPy.originalTextDocument adjustedRange = false ∧
        diagCleanAdjusted = adjustDiagnostic ctxPy.kind raw adjustedRange :=
  updateDiagnostics_publishes_only_mapped_matching_unignored envClean "emb.py" ctxPy
    (publishFor envClean ctxPy) diagCleanAdjusted rfl rfl (by decide)

/-- Claim C2: a Pylance diagnostic with no code (signalled by the
    hasDiagnosticCode property reading false, which for Pylance diagnostics
    coincides with the absence of a code) and the exact anonymous-function
    message is suppressed by the anonymous-function rule and never reaches
    the published set; the same source and message with any code present is
    not suppressed by that rule. -/
theorem anonymousFunctionRule_suppression (env : Env) (ctx : Ctx) (d : Diagnostic)
    (hinv : d.hasDiagnosticCode = some false ↔ d.code = DiagnosticCode.missing)
    (hsrc : strIncludesOpt d.source "Pylance" = true)
    (hmsg : d.message = "\"__anonymous\" is not accessed") :
    (d.code = DiagnosticCode.missing →
      checkIsIgnoredDiagnosticOnAnonymousFunctionFirstLine d = true ∧
      processOneDiagnostic env ctx d = Option.none) ∧
    (d.code ≠ DiagnosticCode.missing →
      checkIsIgnoredDiagnosticOnAnonymousFunctionFirstLine d = false) := by
  constructor
  · intro hcode
    have hanon : checkIsIgnoredDiagnosticOnAnonymousFunctionFirstLine d = true := by
      simp [checkIsIgnoredDiagnosticOnAnonymousFunctionFirstLine, hsrc, hmsg, hinv.mpr hcode]
    refine ⟨hanon, processOne_none_of_ignored env ctx d (fun r => ?_)⟩
    simp [checkIsIgnoredDiagnostic, hanon]
  · intro hcode
    have hnot : ¬d.hasDiagnosticCode = some false := fun hfd => hcode (hinv.mp hfd)
    simp [checkIsIgnoredDiagnosticOnAnonymousFunctionFirstLine, hnot]

theorem anonymousFunctionRule_suppression_witness :
    checkIsIgnoredDiagnosticOnAnonymousFunctionFirstLine diagAnon = true ∧
    processOneDiagnostic envClean ctxPy diagAnon = Option.none ∧
    checkIsIgnoredDiagnosticOnAnonymousFunctionFirstLine diagAnonCoded = false := by
  have h1 := (anonymousFunctionRule_suppression envClean ctxPy diagAnon (by decide) (by decide) rfl).1 rfl
  have h2 := (anonymousFunctionRule_suppression envClean ctxPy diagAnonCoded (by decide) (by decide) rfl).2 (by decide)
  exact ⟨h1.1, h1.2, h2⟩

/-- Claim C3 counterexample: the claim reads the always-ignored table with
    the bare Pylint rule identifier as the code, yet a diagnostic with
    source Pylint and code exactly C0114 passes the always-ignored check and
    is published by updateDiagnostics, message and range notwithstanding. -/
theorem alwaysIgnoredPairs_bare_pylint_code_published :
    diagC0114.source = some "Pylint" ∧
    diagC0114.code = DiagnosticCode.str "C0114" ∧
    diagC0114 ∈ envC0114.getDiagnostics (EmbeddedLanguageDocInfos.mk "emb.py" []).uri ∧
    updateDiagnostics envC0114 "emb.py" =
      some (Publish.mk EmbeddedLanguageType.python "orig.bb"
        [adjustDiagnostic EmbeddedLanguageType.python diagC0114 diagC0114.range]) ∧
    [adjustDiagnostic EmbeddedLanguageType.python diagC0114 diagC0114.range] ≠ [] := by
  refine ⟨rfl, rfl, by decide, ?_, by decide⟩
  rfl

/-- Claim C3 as amended: for every pair of the always-ignored table as the
    code spells it (the Pylint entries carry the full code strings such as
    C0114:missing-module-docstring), a diagnostic matching that source and
    code is never published, for every message content and every range. -/
theorem alwaysIgnoredTable_never_published (env : Env) (ctx : Ctx) (d : Diagnostic) (s c : String)
    (hmem : (s, c) ∈ alwaysIgnoredPairs)
    (hsc : hasSourceWithCode d s c = true) :
    processOneDiagnostic env ctx d = Option.none ∧
    ∀ uri pub, resolveContext env uri = some ctx → updateDiagnostics env uri = some pub →
      ∀ cd ∈ pub.diagnostics,
        ∃ raw, raw ∈ env.getDiagnostics ctx.infos.uri ∧ raw ≠ d ∧ processOneDiagnostic env ctx raw = some cd := by
  have halways := alwaysIgnored_of_pair d s c hmem hsc
  have hnone : processOneDiagnostic env ctx d = Option.none :=
    processOne_none_of_ignored env ctx d (fun r => by simp [checkIsIgnoredDiagnostic, halways])
  exact ⟨hnone, fun uri pub hctx hpub cd hcd =>
    published_from_other env ctx uri pub d cd hnone hctx hpub hcd⟩

theorem alwaysIgnoredTable_never_published_witness :
    processOneDiagnostic envClean ctxPy diagC0114Full = Option.none :=
  (alwaysIgnoredTable_never_published envClean ctxPy diagC0114Full "Pylint"
    "C0114:missing-module-docstring" (by decide) (by decide)).1

/-- Claim C4: a Flake8 F811 diagnostic citing line 3 has its message
    rewritten to the fixed imported-by-BitBake suffix (3 is within the
    import-line threshold 7), the same diagnostic citing line 9 keeps its
    message, and any diagnostic whose message matches none of the three
    import-warning patterns keeps its message. -/
theorem fixDiagnosticMessagePythonImport_behaviour (d1 d2 d3 : Diagnostic)
    (h1 : hasSourceWithCode d1 "Flake8" "F811" = true)
    (hm1 : d1.message = "redefinition of unused \x27x\x27 from line 3")
    (h2 : hasSourceWithCode d2 "Flake8" "F811" = true)
    (hm2 : d2.message = "redefinition of unused \x27x\x27 from line 9") :
    fixDiagnosticMessagePythonImport d1 = "redefinition of unused \x27x\x27 (imported by BitBake)" ∧
    fixDiagnosticMessagePythonImport d2 = d2.message ∧
    (importMatch f811Lit1 f811Lit2 f811Lit3 d3.message = Option.none →
      importMatch w0404Lit1 w0404Lit2 w0404Lit3 d3.message = Option.none →
      importMatch w0621Lit1 w0621Lit2 w0621Lit3 d3.message = Option.none →
      fixDiagnosticMessagePythonImport d3 = d3.message) := by
  refine ⟨?_, ?_, ?_⟩
  · unfold fixDiagnosticMessagePythonImport
    rw [if_pos h1, hm1]
    decide
  · unfold fixDiagnosticMessagePythonImport
    rw [if_pos h2, hm2]
    decide
  · intro ha hb hc
    unfold fixDiagnosticMessagePythonImport
    split
    · rw [ha]
      rfl
    · split
      · rw [hb]
        rfl
      · split
        · rw [hc]
          rfl
        · rfl

theorem fixDiagnosticMessagePythonImport_behaviour_witness :
    fixDiagnosticMessagePythonImport diagF811near = "redefinition of unused \x27x\x27 (imported by BitBake)" ∧
    fixDiagnosticMessagePythonImport diagF811far = "redefinition of unused \x27x\x27 from line 9" ∧
    fixDiagnosticMessagePythonImport diagOther = "hello" := by
  have h := fixDiagnosticMessagePythonImport_behaviour diagF811near diagF811far diagOther
    (by decide) rfl (by decide) rfl
  exact ⟨h.1, h.2.1, h.2.2 (by decide) (by decide) (by decide)⟩

/-- Claim C5: for a shellcheck SC2154 diagnostic over a FOO variable
    expansion, the rule suppresses it when the definition service returns a
    definition at the extracted variable position; with no definition it is
    still suppressed when the message matches the referenced-but-not-assigned
    pattern and the variable is in the common-directories set; when neither
    holds the rule does not fire and the diagnostic is published carrying its
    mapped range. -/
theorem shellcheckSc2154_rule_behaviour (env : Env) (ctx : Ctx) (d : Diagnostic) (r : Range)
    (hcode : hasSourceWithCode d "shellcheck" "SC2154" = true)
    (htext : ctx.originalTextDocument.getText r = "$\x7bFOO\x7d") :
    (0 < (env.getDefinition ctx.originalTextDocument (Position.mk r.endPos.line (r.start.character + 5))).length →
      checkIsIgnoredShellcheckSc2154 env d ctx.originalTextDocument r = true) ∧
    (env.getDefinition ctx.originalTextDocument (Position.mk r.endPos.line (r.start.character + 5)) = [] →
      d.message = "FOO is referenced but not assigned." →
      env.commonDirectoriesVariables.contains "FOO" = true →
      checkIsIgnoredShellcheckSc2154 env d ctx.originalTextDocument r = true) ∧
    (env.getDefinition ctx.originalTextDocument (Position.mk r.endPos.line (r.start.character + 5)) = [] →
      sc2154Fallback env d.message = false →
      d.hasDiagnosticCode ≠ some false →
      env.getOriginalDocRange ctx.originalTextDocument ctx.embeddedLanguageDoc ctx.infos.characterIndexes d.range = some r →
      env.getEmbeddedLanguageTypeOnPosition ctx.originalTextDocument.uri r.endPos = some ctx.kind →
      checkIsIgnoredShellcheckSc2154 env d ctx.originalTextDocument r = false ∧
      processOneDiagnostic env ctx d = some (adjustDiagnostic ctx.kind d r)) := by
  have hpos : sc2154Position ctx.originalTextDocument r = Position.mk r.endPos.line (r.start.character + 5) := by
    unfold sc2154Position
    rw [htext]
    dsimp only
    rw [show firstWordRun "$\x7bFOO\x7d" = some (2, ['F', 'O', 'O']) from rfl]
    dsimp only
    rw [if_neg (by decide)]
    simp only [List.length_cons, List.length_nil, Position.mk.injEq]
  refine ⟨?_, ?_, ?_⟩
  · intro hdef
    unfold checkIsIgnoredShellcheckSc2154
    rw [if_neg (by simp [hcode]), hpos, if_pos hdef]
  · intro hdef hmsg hfoo
    unfold checkIsIgnoredShellcheckSc2154
    rw [if_neg (by simp [hcode]), hpos, hdef]
    simp only [sc2154Fallback, hmsg]
    rw [if_neg (by decide), show sc2154MessageVariable "FOO is referenced but not assigned." = some "FOO" from rfl]
    simpa using hfoo
  · intro hdef hfb hanon hmap hkind
    have hrule : checkIsIgnoredShellcheckSc2154 env d ctx.originalTextDocument r = false := by
      unfold checkIsIgnoredShellcheckSc2154
      rw [if_neg (by simp [hcode]), hpos, hdef]
      simpa using hfb
    refine ⟨hrule, ?_⟩
    have hsup : checkHasSupportedSource d = true := by
      have hi := hasSourceWithCode_includes d "shellcheck" "SC2154" hcode
      simp [checkHasSupportedSource, supportedSources, hi]
    have halways : checkIsAlwaysIgnoredDiagnostic d = false :=
      alwaysIgnored_false_of_code d "shellcheck" "SC2154" hcode (by decide)
    have hanon2 : checkIsIgnoredDiagnosticOnAnonymousFunctionFirstLine d = false := by
      simp [checkIsIgnoredDiagnosticOnAnonymousFunctionFirstLine, hanon]
    have hundef : checkIsIgnoredDiagnosticOnPythonUndefinedVariable env d ctx.originalTextDocument r = false :=
      undefinedVariable_false_of_code env d ctx.originalTextDocument r "shellcheck" "SC2154" hcode
        (by decide) (by decide) (by decide)
    have hig : checkIsIgnoredDiagnostic env d ctx.originalTextDocument r = false := by
      simp [checkIsIgnoredDiagnostic, halways, hanon2, hundef, hrule]
    exact (processOne_eq_some_iff env ctx d (adjustDiagnostic ctx.kind d r)).mpr
      ⟨hsup, r, hmap, hkind, hig, rfl⟩

theorem shellcheckSc2154_rule_behaviour_witness :
    checkIsIgnoredShellcheckSc2154 envSCdef diagSC docFoo diagSC.range = true ∧
    checkIsIgnoredShellcheckSc2154 envSCfallback diagSC docFoo diagSC.range = true ∧
    checkIsIgnoredShellcheckSc2154 envSCnone diagSC docFoo diagSC.range = false ∧
    processOneDiagnostic envSCnone ctxBash diagSC = some (adjustDiagnostic EmbeddedLanguageType.bash diagSC diagSC.range) := by
  have h1 := (shellcheckSc2154_rule_behaviour envSCdef ctxBash diagSC diagSC.range (by decide) rfl).1 (by decide)
  have h2 := (shellcheckSc2154_rule_behaviour envSCfallback ctxBash diagSC diagSC.range (by decide) rfl).2.1 rfl rfl (by decide)
  have h3 := (shellcheckSc2154_rule_behaviour envSCnone ctxBash diagSC diagSC.range (by decide) rfl).2.2 rfl (by decide) (by decide) rfl rfl
  exact ⟨h1, h2, h3.1, h3.2⟩

/-- Claim C6: a diagnostic whose source contains none of the four supported
    tool names, including one with no source at all, is never published:
    its per-diagnostic task yields nothing, so every published entry stems
    from some other raw diagnostic. -/
theorem unsupportedSource_never_published (env : Env) (ctx : Ctx) (d : Diagnostic)
    (hsrc : ∀ s, s ∈ supportedSources → strIncludesOpt d.source s = false) :
    processOneDiagnostic env ctx d = Option.none ∧
    ∀ uri pub, resolveContext env uri = some ctx → updateDiagnostics env uri = some pub →
      ∀ cd ∈ pub.diagnostics,
        ∃ raw, raw ∈ env.getDiagnostics ctx.infos.uri ∧ raw ≠ d ∧ processOneDiagnostic env ctx raw = some cd := by
  have hsup : checkHasSupportedSource d = false := by
    unfold checkHasSupportedSource
    rw [List.any_eq_false]
    intro s hs
    simp [hsrc s hs]
  have hnone : processOneDiagnostic env ctx d = Option.none := by
    unfold processOneDiagnostic
    simp [hsup]
  exact ⟨hnone, fun uri pub hctx hpub cd hcd =>
    published_from_other env ctx uri pub d cd hnone hctx hpub hcd⟩

theorem unsupportedSource_never_published_witness :
    processOneDiagnostic envClean ctxPy diagEslint = Option.none :=
  (unsupportedSource_never_published envClean ctxPy diagEslint (by decide)).1

/-- Claim C7: for a URI whose file extension is neither .py nor .sh,
    updateDiagnostics performs no publication and leaves the two diagnostic
    collections unchanged. -/
theorem updateDiagnostics_non_embedded_uri_noop (env : Env) (uri : Uri)
    (hpy : extname uri ≠ ".py") (hsh : extname uri ≠ ".sh") :
    updateDiagnostics env uri = Option.none ∧
    ∀ channels, runUpdateDiagnostics env uri channels = channels := by
  have hkind : getEmbeddedLanguageType uri = Option.none := by
    unfold getEmbeddedLanguageType
    rw [if_neg hpy, if_neg hsh]
  have hctx : resolveContext env uri = Option.none := by
    unfold resolveContext
    rw [hkind]
  have hupd : updateDiagnostics env uri = Option.none := by
    unfold updateDiagnostics
    rw [hctx]
    rfl
  refine ⟨hupd, fun channels => ?_⟩
  unfold runUpdateDiagnostics
  rw [hupd]

theorem updateDiagnostics_non_embedded_uri_noop_witness :
    updateDiagnostics envClean "recipe.bb" = Option.none ∧
    runUpdateDiagnostics envClean "recipe.bb" emptyChannels = emptyChannels := by
  have h := updateDiagnostics_non_embedded_uri_noop envClean "recipe.bb" (by decide) (by decide)
  exact ⟨h.1, h.2 emptyChannels⟩

/-- Claim C8: two updateDiagnostics calls for the same URI against
    collaborators giving unchanged responses publish the identical
    diagnostic set, and the second call leaves the diagnostic collections
    exactly as the first left them. -/
theorem updateDiagnostics_deterministic_idempotent (env1 env2 : Env) (uri : Uri)
    (h1 : env1.getOriginalUri = env2.getOriginalUri)
    (h2 : env1.textDocuments = env2.textDocuments)
    (h3 : env1.getEmbeddedLanguageDocInfos = env2.getEmbeddedLanguageDocInfos)
    (h4 : env1.openTextDocument = env2.openTextDocument)
    (h5 : env1.getDiagnostics = env2.getDiagnostics)
    (h6 : env1.getAllDiagnostics = env2.getAllDiagnostics)
    (h7 : env1.getOriginalDocRange = env2.getOriginalDocRange)
    (h8 : env1.getEmbeddedLanguageTypeOnPosition = env2.getEmbeddedLanguageTypeOnPosition)
    (h9 : env1.getDefinition = env2.getDefinition)
    (h10 : env1.commonDirectoriesVariables = env2.commonDirectoriesVariables) :
    updateDiagnostics env1 uri = updateDiagnostics env2 uri ∧
    ∀ channels, runUpdateDiagnostics env1 uri (runUpdateDiagnostics env2 uri channels) = runUpdateDiagnostics env2 uri channels := by
  have henv : env1 = env2 := by
    cases env1
    cases env2
    simp_all
  subst henv
  exact ⟨rfl, fun channels => runUpdateDiagnostics_idem env1 uri channels⟩

theorem updateDiagnostics_deterministic_idempotent_witness :
    updateDiagnostics envClean "emb.py" = updateDiagnostics envClean "emb.py" ∧
    runUpdateDiagnostics envClean "emb.py" (runUpdateDiagnostics envClean "emb.py" emptyChannels) = runUpdateDiagnostics envClean "emb.py" emptyChannels := by
  have h := updateDiagnostics_deterministic_idempotent envClean envClean "emb.py"
    rfl rfl rfl rfl rfl rfl rfl rfl rfl rfl
  exact ⟨h.1, h.2 emptyChannels⟩

/-- Claim C9: when the host reports no URI holding diagnostics,
    reviewDiagnostics performs no publication and leaves the diagnostic
    collections unchanged. -/
theorem reviewDiagnostics_no_diagnostics_no_publish (env : Env)
    (h : env.getAllDiagnostics = []) :
    reviewDiagnosticsPublishes env = [] ∧
    ∀ channels, reviewDiagnosticsRun env channels = channels := by
  refine ⟨?_, fun channels => ?_⟩
  · unfold reviewDiagnosticsPublishes
    rw [h]
    rfl
  · unfold reviewDiagnosticsRun
    rw [h]
    rfl

theorem reviewDiagnostics_no_diagnostics_no_publish_witness :
    reviewDiagnosticsPublishes envClean = [] ∧
    reviewDiagnosticsRun envClean emptyChannels = emptyChannels := by
  have h := reviewDiagnostics_no_diagnostics_no_publish envClean rfl
  exact ⟨h.1, h.2 emptyChannels⟩

/-- Claim C10: every published diagnostic agrees with its raw diagnostic on
    every field other than message, range and source: severity, code,
    relatedInformation, tags and the extra hasDiagnosticCode property are
    carried over unchanged by the spread construction. -/
theorem published_diagnostic_preserves_other_fields
    (env : Env) (uri : Uri) (ctx : Ctx) (pub : Publish) (cd : Diagnostic)
    (hctx : resolveContext env uri = some ctx)
    (hpub : updateDiagnostics env uri = some pub)
    (hcd : cd ∈ pub.diagnostics) :
    ∃ raw, raw ∈ env.getDiagnostics ctx.infos.uri ∧
      cd.severity = raw.severity ∧ cd.code = raw.code ∧
      cd.relatedInformation = raw.relatedInformation ∧ cd.tags = raw.tags ∧
      cd.hasDiagnosticCode = raw.hasDiagnosticCode := by
  rw [publish_eq_of_resolve env uri ctx pub hctx hpub] at hcd
  rcases (mem_publishFor env ctx cd).mp hcd with ⟨raw, hrm, hproc⟩
  rcases (processOne_eq_some_iff env ctx raw cd).mp hproc with ⟨hsup, adjustedRange, hr, hkind, hig, hcd2⟩
  subst hcd2
  exact ⟨raw, hrm, rfl, rfl, rfl, rfl, rfl⟩

theorem published_diagnostic_preserves_other_fields_witness :
    ∃ raw, raw ∈ envClean.getDiagnostics ctxPy.infos.uri ∧
      diagCleanAdjusted.severity = raw.severity ∧ diagCleanAdjusted.code = raw.code ∧
      diagCleanAdjusted.relatedInformation = raw.relatedInformation ∧ diagCleanAdjusted.tags = raw.tags ∧
      diagCleanAdjusted.hasDiagnosticCode = raw.hasDiagnosticCode :=
  published_diagnostic_preserves_other_fields envClean "emb.py" ctxPy
    (publishFor envClean ctxPy) diagCleanAdjusted rfl rfl (by decide)
